import Mathlib

/-!
Verification of the realtime session synchronization engine of the
AI_monitor dashboard: the zustand session store (session.store.ts),
the WebSocket hook (useWebSocket.ts) and the audio-metrics polling
hook (useAudioMetrics.ts), shallowly embedded as pure Lean functions.
JS numbers are modelled as rationals (the store only copies and
compares them, it performs no arithmetic on them).
-/

namespace AIMonitor

/-- JS numbers as stored in the state (no arithmetic is performed on them). -/
abbrev JNum := Rat

/-- JS fallback x || d for an optional numeric field: absent, null and 0 fall back. -/
def jsOrNum (x : Option JNum) (d : JNum) : JNum :=
  match x with
  | none => d
  | some v => if v = 0 then d else v

/-- JS fallback x || d for an optional string field: absent, null and "" fall back. -/
def jsOrStr (x : Option String) (d : String) : String :=
  match x with
  | none => d
  | some s => if s = "" then d else s

/-- JS fallback x || d for an optional boolean field: absent, null and false fall back. -/
def jsOrBool (x : Option Bool) (d : Bool) : Bool :=
  match x with
  | none => d
  | some b => if b = false then d else b

/-- A JS Record of string keys to numbers, as an association list
(lookup takes the first matching key). -/
abbrev EmotionMap := List (String × JNum)

/-- Lookup of key k in an emotion map, with default d for an absent key. -/
def lookupD (m : EmotionMap) (k : String) (d : JNum) : JNum :=
  match m.find? (fun p => p.1 == k) with
  | some p => p.2
  | none => d

/-- JS object spread of base then extra: keys of extra override keys of base. -/
def spreadEmo (base extra : EmotionMap) : EmotionMap :=
  base.filter (fun p => !(extra.any (fun q => q.1 == p.1))) ++ extra

-- =========================
-- REALTIME STATE TYPES (session.store.ts)
-- =========================

inductive AudioStatus
  | idle | recording | processing | done | error
  deriving DecidableEq, Repr

/-- AudioState of session.store.ts. -/
structure AudioState where
  amplitude : JNum
  isSpeech : Bool
  duration : JNum
  status : AudioStatus
  totalFrames : JNum
  speechFrames : JNum
  error : Option String
  deriving DecidableEq, Repr

/-- VideoState of session.store.ts. -/
structure VideoState where
  faceCount : JNum
  dominantEmotion : String
  confidence : JNum
  totalFrames : JNum
  duration : JNum
  emotionCounts : EmotionMap
  isRecording : Bool
  deriving DecidableEq, Repr

/-- AgentState of session.store.ts.  The declared type of finalState is the
union SATISFIED | NEUTRAL | DISSATISFIED | null, but setFinalResult installs
the raw wire string through a pure type cast, so at runtime any string can
be stored; the field is therefore embedded as Option String. -/
structure AgentState where
  finalState : Option String
  confidence : EmotionMap
  reasoning : List String
  recommendation : String
  deriving DecidableEq, Repr

inductive SessionStatus
  | idle | recording | processing | complete | error
  deriving DecidableEq, Repr

/-- SessionMeta of session.store.ts (startTime : Date | null modelled as an
optional epoch number). -/
structure SessionMeta where
  id : String
  startTime : Option JNum
  status : SessionStatus
  videoActive : Option Bool
  audioActive : Option Bool
  deriving DecidableEq, Repr

/-- ConnectionState of session.store.ts. -/
structure ConnectionState where
  isConnected : Bool
  isConnecting : Bool
  reconnectCount : Nat
  lastError : Option String
  deriving DecidableEq, Repr

inductive EventType
  | session_start | session_stop | emotion_spike | speech_detected
  | face_detected | result_ready
  deriving DecidableEq, Repr

/-- TimelineEvent of session.store.ts; the untyped data payload is modelled
as an optional association list of strings (the store never inspects it). -/
structure TimelineEvent where
  id : String
  type : EventType
  timestamp : JNum
  data : Option (List (String × String))
  deriving DecidableEq, Repr

inductive Role
  | supervisor | qa_manager
  deriving DecidableEq, Repr

/-- Legacy VideoStats of session.store.ts. -/
structure VideoStats where
  is_recording : Bool
  total_frames : JNum
  duration_seconds : JNum
  counts : EmotionMap
  current_emotion : String
  current_confidence : JNum
  deriving DecidableEq, Repr

/-- Legacy LiveMetrics of session.store.ts. -/
structure LiveMetrics where
  amplitude : JNum
  is_speech : Bool
  duration : JNum
  deriving DecidableEq, Repr

/-- Legacy FinalResult of session.store.ts.  confidence is embedded as an
Option because the value is cast from the wire and setFinalResult guards it
with a || fallback; reasoning and recommendation are declared optional. -/
structure FinalResult where
  final_state : String
  confidence : Option EmotionMap
  reasoning : Option (List String)
  recommendation : Option String
  deriving DecidableEq, Repr

/-- The full zustand SessionStore state (data fields only; the actions are
the Lean functions below). -/
structure SessionStore where
  role : Role
  session : SessionMeta
  audio : AudioState
  video : VideoState
  agent : AgentState
  connection : ConnectionState
  isLoading : Bool
  error : Option String
  events : List TimelineEvent
  videoStats : Option VideoStats
  audioMetrics : Option LiveMetrics
  finalResult : Option FinalResult
  deriving DecidableEq, Repr

-- =========================
-- PARTIAL UPDATE SHAPES
-- =========================

/-- A TS partial of AudioState: each key may be absent. -/
structure AudioPatch where
  amplitude : Option JNum := none
  isSpeech : Option Bool := none
  duration : Option JNum := none
  status : Option AudioStatus := none
  totalFrames : Option JNum := none
  speechFrames : Option JNum := none
  error : Option (Option String) := none
  deriving DecidableEq, Repr

/-- A TS partial of VideoState. -/
structure VideoPatch where
  faceCount : Option JNum := none
  dominantEmotion : Option String := none
  confidence : Option JNum := none
  totalFrames : Option JNum := none
  duration : Option JNum := none
  emotionCounts : Option EmotionMap := none
  isRecording : Option Bool := none
  deriving DecidableEq, Repr

/-- A TS partial of AgentState (finalState may be present and null). -/
structure AgentPatch where
  finalState : Option (Option String) := none
  confidence : Option EmotionMap := none
  reasoning : Option (List String) := none
  recommendation : Option String := none
  deriving DecidableEq, Repr

/-- A TS partial of ConnectionState. -/
structure ConnectionPatch where
  isConnected : Option Bool := none
  isConnecting : Option Bool := none
  reconnectCount : Option Nat := none
  lastError : Option (Option String) := none
  deriving DecidableEq, Repr

/-- A TS partial of SessionMeta. -/
structure SessionPatch where
  id : Option String := none
  startTime : Option (Option JNum) := none
  status : Option SessionStatus := none
  videoActive : Option (Option Bool) := none
  audioActive : Option (Option Bool) := none
  deriving DecidableEq, Repr

-- =========================
-- INITIAL STATE (session.store.ts)
-- =========================

def initialAudio : AudioState :=
  { amplitude := 0, isSpeech := false, duration := 0, status := .idle,
    totalFrames := 0, speechFrames := 0, error := none }

def initialVideo : VideoState :=
  { faceCount := 0, dominantEmotion := "neutral", confidence := 0,
    totalFrames := 0, duration := 0, emotionCounts := [], isRecording := false }

def initialAgent : AgentState :=
  { finalState := none, confidence := [], reasoning := [], recommendation := "" }

def initialSession : SessionMeta :=
  { id := "", startTime := none, status := .idle,
    videoActive := some false, audioActive := some false }

def initialConnection : ConnectionState :=
  { isConnected := false, isConnecting := false, reconnectCount := 0, lastError := none }

/-- The store as created (all slices at their initial values). -/
def initialStore : SessionStore :=
  { role := .supervisor, session := initialSession, audio := initialAudio,
    video := initialVideo, agent := initialAgent, connection := initialConnection,
    isLoading := false, error := none, events := [],
    videoStats := none, audioMetrics := none, finalResult := none }

-- =========================
-- STORE ACTIONS (session.store.ts)
-- =========================

/-- The JS spread { ...prev, ...patch } for AudioState: a present key of the
patch overwrites the field, an absent key leaves it. -/
def mergeAudio (a : AudioState) (p : AudioPatch) : AudioState :=
  { amplitude := p.amplitude.getD a.amplitude,
    isSpeech := p.isSpeech.getD a.isSpeech,
    duration := p.duration.getD a.duration,
    status := p.status.getD a.status,
    totalFrames := p.totalFrames.getD a.totalFrames,
    speechFrames := p.speechFrames.getD a.speechFrames,
    error := p.error.getD a.error }

/-- The JS spread { ...prev, ...patch } for VideoState. -/
def mergeVideo (v : VideoState) (p : VideoPatch) : VideoState :=
  { faceCount := p.faceCount.getD v.faceCount,
    dominantEmotion := p.dominantEmotion.getD v.dominantEmotion,
    confidence := p.confidence.getD v.confidence,
    totalFrames := p.totalFrames.getD v.totalFrames,
    duration := p.duration.getD v.duration,
    emotionCounts := p.emotionCounts.getD v.emotionCounts,
    isRecording := p.isRecording.getD v.isRecording }

/-- The JS spread { ...prev, ...patch } for AgentState. -/
def mergeAgent (a : AgentState) (p : AgentPatch) : AgentState :=
  { finalState := p.finalState.getD a.finalState,
    confidence := p.confidence.getD a.confidence,
    reasoning := p.reasoning.getD a.reasoning,
    recommendation := p.recommendation.getD a.recommendation }

/-- The JS spread { ...prev, ...patch } for ConnectionState. -/
def mergeConnection (c : ConnectionState) (p : ConnectionPatch) : ConnectionState :=
  { isConnected := p.isConnected.getD c.isConnected,
    isConnecting := p.isConnecting.getD c.isConnecting,
    reconnectCount := p.reconnectCount.getD c.reconnectCount,
    lastError := p.lastError.getD c.lastError }

/-- The JS spread { ...prev, ...patch } for SessionMeta. -/
def mergeSession (m : SessionMeta) (p : SessionPatch) : SessionMeta :=
  { id := p.id.getD m.id,
    startTime := p.startTime.getD m.startTime,
    status := p.status.getD m.status,
    videoActive := p.videoActive.getD m.videoActive,
    audioActive := p.audioActive.getD m.audioActive }

def setRole (r : Role) (s : SessionStore) : SessionStore := { s with role := r }

def setSession (p : SessionPatch) (s : SessionStore) : SessionStore :=
  { s with session := mergeSession s.session p }

/-- resetSession of session.store.ts: restores session, audio, video, agent,
events, error and the legacy mirrors; the zustand set() merge leaves every
other top-level field (role, connection, isLoading) unchanged. -/
def resetSession (s : SessionStore) : SessionStore :=
  { s with
    session := initialSession, audio := initialAudio, video := initialVideo,
    agent := initialAgent, events := [], error := none,
    videoStats := none, audioMetrics := none, finalResult := none }

def setAudioState (p : AudioPatch) (s : SessionStore) : SessionStore :=
  { s with audio := mergeAudio s.audio p }

def resetAudio (s : SessionStore) : SessionStore := { s with audio := initialAudio }

def setVideoState (p : VideoPatch) (s : SessionStore) : SessionStore :=
  { s with video := mergeVideo s.video p }

def resetVideo (s : SessionStore) : SessionStore := { s with video := initialVideo }

def setAgentState (p : AgentPatch) (s : SessionStore) : SessionStore :=
  { s with agent := mergeAgent s.agent p }

def resetAgent (s : SessionStore) : SessionStore := { s with agent := initialAgent }

def setConnectionState (p : ConnectionPatch) (s : SessionStore) : SessionStore :=
  { s with connection := mergeConnection s.connection p }

def setLoading (b : Bool) (s : SessionStore) : SessionStore := { s with isLoading := b }

def setError (e : Option String) (s : SessionStore) : SessionStore := { s with error := e }

/-- The JS events.slice(-49): the last 49 elements (the whole list when it
is shorter). -/
def sliceLast49 (l : List TimelineEvent) : List TimelineEvent :=
  l.drop (l.length - 49)

/-- addEvent of session.store.ts: events := [...events.slice(-49), event]. -/
def addEvent (e : TimelineEvent) (s : SessionStore) : SessionStore :=
  { s with events := sliceLast49 s.events ++ [e] }

def clearEvents (s : SessionStore) : SessionStore := { s with events := [] }

/-- setVideoStats of session.store.ts: stores the legacy stats and, when they
are non-null, rebuilds the whole video slice from them (every field of the
spread is overridden, and faceCount is hard-coded to 0). -/
def setVideoStats (stats : Option VideoStats) (s : SessionStore) : SessionStore :=
  let s1 := { s with videoStats := stats }
  match stats with
  | none => s1
  | some st =>
    { s1 with video :=
      { faceCount := 0,
        dominantEmotion := st.current_emotion,
        confidence := st.current_confidence,
        totalFrames := st.total_frames,
        duration := st.duration_seconds,
        emotionCounts := st.counts,
        isRecording := st.is_recording } }

/-- setAudioMetrics of session.store.ts: stores the legacy metrics and, when
they are non-null, merges amplitude, isSpeech, duration into the audio slice
and forces status to recording. -/
def setAudioMetrics (m : Option LiveMetrics) (s : SessionStore) : SessionStore :=
  let s1 := { s with audioMetrics := m }
  match m with
  | none => s1
  | some mm =>
    { s1 with audio :=
      { s1.audio with
        amplitude := mm.amplitude, isSpeech := mm.is_speech,
        duration := mm.duration, status := .recording } }

/-- setFinalResult of session.store.ts: stores the legacy result and, when it
is non-null, overwrites the agent slice fields from it unconditionally (the
final_state string is installed through a type cast). -/
def setFinalResult (r : Option FinalResult) (s : SessionStore) : SessionStore :=
  let s1 := { s with finalResult := r }
  match r with
  | none => s1
  | some res =>
    { s1 with agent :=
      { s1.agent with
        finalState := some res.final_state,
        confidence := res.confidence.getD [],
        reasoning := res.reasoning.getD [],
        recommendation := jsOrStr res.recommendation "" } }

-- =========================
-- PUSH-CHANNEL DECODING (useWebSocket.ts handleMessage)
-- =========================

/-- The data payload of a video_stats frame as it may arrive on the wire:
every field may be absent. -/
structure VideoStatsWire where
  total_frames : Option JNum := none
  duration : Option JNum := none
  emotion_counts : Option EmotionMap := none
  dominant_emotion : Option String := none
  confidence : Option JNum := none
  deriving DecidableEq, Repr

/-- The video_stats case of handleMessage in useWebSocket.ts: the wire data
is normalized into a complete legacy VideoStats snapshot (missing numeric
fields become 0 via ||, the emotion label falls back to neutral, is_recording
is hard-coded to true, and the counts are the four zeroed base emotions
overridden by whatever arrived) and handed to setVideoStats. -/
def handleVideoStats (d : VideoStatsWire) (s : SessionStore) : SessionStore :=
  setVideoStats (some
    { is_recording := true,
      total_frames := jsOrNum d.total_frames 0,
      duration_seconds := jsOrNum d.duration 0,
      counts := spreadEmo
        [("happy", 0), ("neutral", 0), ("sad", 0), ("angry", 0)]
        (d.emotion_counts.getD []),
      current_emotion := jsOrStr d.dominant_emotion "neutral",
      current_confidence := jsOrNum d.confidence 0 }) s

-- =========================
-- HEARTBEAT MONITOR (useWebSocket.ts startPing / handleMessage)
-- =========================

/-- PING_INTERVAL of useWebSocket.ts is 5000 ms; time is modelled in discrete
probe ticks, so only the threshold matters here. -/
def MAX_MISSED_PONGS : Nat := 3

/-- Default reconnectAttempts of useWebSocket.ts. -/
def reconnectAttemptsDefault : Nat := 5

/-- The heartbeat-relevant slice of the useWebSocket hook: the socket
readiness, the ping interval handle, the missedPongs ref, and the pieces of
hook state that the close handler touches. -/
structure HBState where
  wsOpen : Bool
  pingActive : Bool
  missedPongs : Nat
  lastHeartbeat : Option Nat
  isConnected : Bool
  shouldReconnect : Bool
  reconnectCount : Nat
  closePending : Bool
  reconnectScheduled : Bool
  deriving DecidableEq, Repr

/-- One firing of the setInterval callback installed by startPing: while the
socket reports OPEN it increments missedPongs; past the threshold it calls
close() on the socket (the close event is delivered later) and returns,
otherwise it sends a ping. -/
def hbTick (s : HBState) : HBState :=
  if s.pingActive && s.wsOpen then
    let m := s.missedPongs + 1
    if MAX_MISSED_PONGS < m then
      { s with missedPongs := m, wsOpen := false, closePending := true }
    else
      { s with missedPongs := m }
  else s

/-- The pong case of handleMessage: resets the missedPongs ref to 0 and
records the liveness timestamp. -/
def hbPong (t : Nat) (s : HBState) : HBState :=
  if s.wsOpen then { s with missedPongs := 0, lastHeartbeat := some t } else s

/-- The heartbeat case of handleMessage: records the liveness timestamp only;
it does not touch the missedPongs ref. -/
def hbHeartbeat (t : Nat) (s : HBState) : HBState :=
  if s.wsOpen then { s with lastHeartbeat := some t } else s

/-- Delivery of the ws.onclose event: marks the hook disconnected, stops the
ping interval (which zeroes the missedPongs ref), and schedules a reconnect
attempt when auto-reconnect is still enabled and attempts remain. -/
def hbClose (s : HBState) : HBState :=
  if s.closePending then
    { s with
      closePending := false, isConnected := false, pingActive := false,
      missedPongs := 0,
      reconnectScheduled :=
        s.shouldReconnect && decide (s.reconnectCount < reconnectAttemptsDefault) }
  else s

-- =========================
-- CONNECT (useWebSocket.ts connect)
-- =========================

/-- The readyState values of a browser WebSocket. -/
inductive WSReady
  | CONNECTING | OPEN | CLOSING | CLOSED
  deriving DecidableEq, Repr

/-- The connect-relevant slice of the useWebSocket hook: the current socket
(none when wsRef.current is null) with its readyState, the isConnecting flag
and error slot, plus a count of WebSocket constructions performed, to make
duplicate transports observable. -/
structure WSConnState where
  wsReady : Option WSReady
  isConnecting : Bool
  error : Option String
  transportsOpened : Nat
  deriving DecidableEq, Repr

/-- connect of useWebSocket.ts: returns immediately when the current socket
reports OPEN; in every other situation (no socket, CONNECTING, CLOSING,
CLOSED) it marks connecting and constructs a fresh WebSocket, overwriting
wsRef. -/
def connect (s : WSConnState) : WSConnState :=
  if s.wsReady = some WSReady.OPEN then s
  else
    { s with
      isConnecting := true, error := none,
      wsReady := some WSReady.CONNECTING,
      transportsOpened := s.transportsOpened + 1 }

-- =========================
-- POLL COORDINATOR (useAudioMetrics.ts polling effect)
-- =========================

/-- The polling effect of useAudioMetrics together with the store it writes
to: whether the interval is installed, and the queue of fetches already
dispatched but not yet completed (each carrying the metrics the endpoint
will answer with). -/
structure PollState where
  intervalActive : Bool
  inFlight : List LiveMetrics
  store : SessionStore
  deriving DecidableEq, Repr

/-- One firing of the polling interval: while installed it dispatches a fetch
of the live metrics (answered later by m); after cleanup nothing fires. -/
def pollTick (m : LiveMetrics) (s : PollState) : PollState :=
  if s.intervalActive then { s with inFlight := s.inFlight ++ [m] } else s

/-- The effect cleanup of useAudioMetrics: clearInterval on the handle. It
does not touch the in-flight queue and installs no guard token. -/
def pollDisable (s : PollState) : PollState := { s with intervalActive := false }

/-- Completion of the oldest in-flight fetch: fetchMetrics awaits the
response and calls setAudioMetrics on it unconditionally - there is no check
of the enabled flag or of any cancellation token after the await. -/
def fetchComplete (s : PollState) : PollState :=
  match s.inFlight with
  | [] => s
  | m :: rest => { s with inFlight := rest, store := setAudioMetrics (some m) s.store }

-- =========================
-- DERIVED RUNS AND CONCRETE INPUTS
-- =========================

/-- Folding a list of timeline events into the store through addEvent. -/
def applyEvents (l : List TimelineEvent) (s : SessionStore) : SessionStore :=
  l.foldl (fun st e => addEvent e st) s

/-- The last 50 elements of a list (the shape the timeline buffer keeps). -/
def lastFifty (l : List TimelineEvent) : List TimelineEvent :=
  l.drop (l.length - 50)

/-- Folding a list of video patches into the store through setVideoState. -/
def applyVideoPatches (ps : List VideoPatch) (s : SessionStore) : SessionStore :=
  ps.foldl (fun st p => setVideoState p st) s

/-- A sequence of video patches is applied-monotone from a state: whenever a
patch carries totalFrames it carries a value at least the current one, and
whenever it carries emotionCounts every per-key value is at least the
current one. -/
def VideoStepsUp : SessionStore → List VideoPatch → Prop
  | _, [] => True
  | s, p :: ps =>
    (∀ v, p.totalFrames = some v → s.video.totalFrames ≤ v) ∧
    (∀ m, p.emotionCounts = some m →
      ∀ k, lookupD s.video.emotionCounts k 0 ≤ lookupD m k 0) ∧
    VideoStepsUp (setVideoState p s) ps

/-- A concrete timeline event with index i. -/
def mkEv (i : Nat) : TimelineEvent :=
  { id := toString i, type := .emotion_spike, timestamp := i, data := none }

/-- Sixty concrete timeline events. -/
def sixtyEvents : List TimelineEvent := (List.range 60).map mkEv

/-- Concrete live metrics used for the stale-update counterexample. -/
def m1Ex : LiveMetrics := { amplitude := 1, is_speech := true, duration := 2 }

/-- A concrete final result carrying the verdict SATISFIED. -/
def rEx1 : FinalResult :=
  { final_state := "SATISFIED", confidence := some [("satisfied", 1)],
    reasoning := none, recommendation := none }

/-- A concrete final result carrying the verdict NEUTRAL. -/
def rEx2 : FinalResult :=
  { final_state := "NEUTRAL", confidence := some [("neutral", 1)],
    reasoning := none, recommendation := none }

/-- An agent patch carrying an explicit null finalState. -/
def pNull : AgentPatch := { finalState := some none }

/-- A cumulative video patch used as witness input. -/
def pW : VideoPatch := { totalFrames := some 5, emotionCounts := some [("happy", 3)] }

/-- A store whose video view has already counted 40 frames. -/
def s40 : SessionStore := setVideoState { totalFrames := some 40 } initialStore

/-- A video_stats wire payload with every field missing. -/
def dMiss : VideoStatsWire := {}

/-- A heartbeat state two missed probes into a session. -/
def sHB4 : HBState :=
  { wsOpen := true, pingActive := true, missedPongs := 0, lastHeartbeat := none,
    isConnected := true, shouldReconnect := true, reconnectCount := 0,
    closePending := false, reconnectScheduled := false }

/-- Concrete live metrics used for the cancellation counterexample. -/
def m5Ex : LiveMetrics := { amplitude := 1, is_speech := true, duration := 3 }

/-- A poll coordinator with one fetch in flight, still enabled. -/
def sPoll : PollState :=
  { intervalActive := true, inFlight := [m5Ex], store := initialStore }

/-- A poll coordinator already disabled, with one fetch still in flight. -/
def sPoll2 : PollState :=
  { intervalActive := false, inFlight := [m5Ex], store := initialStore }

/-- A hook state whose socket is still CONNECTING (one transport built). -/
def sConn : WSConnState :=
  { wsReady := some WSReady.CONNECTING, isConnecting := true, error := none,
    transportsOpened := 1 }

/-- A hook state whose socket reports OPEN. -/
def sOpenEx : WSConnState :=
  { wsReady := some WSReady.OPEN, isConnecting := false, error := none,
    transportsOpened := 1 }

-- =========================
-- SHARED HELPER LEMMAS
-- =========================

theorem getD_idem {α : Type} (o : Option α) (x : α) : o.getD (o.getD x) = o.getD x := by
  cases o <;> rfl

theorem mergeAudio_idem (a : AudioState) (p : AudioPatch) :
    mergeAudio (mergeAudio a p) p = mergeAudio a p := by
  simp [mergeAudio, getD_idem]

theorem sliceLast49_lastFifty (l : List TimelineEvent) :
    sliceLast49 (lastFifty l) = sliceLast49 l := by
  unfold sliceLast49 lastFifty
  rw [List.drop_drop, List.length_drop]
  congr 1
  omega

theorem lastFifty_append_singleton (l : List TimelineEvent) (e : TimelineEvent) :
    lastFifty (l ++ [e]) = sliceLast49 l ++ [e] := by
  unfold sliceLast49 lastFifty
  rw [List.length_append]
  rw [List.drop_append_of_le_length (by simp only [List.length_singleton]; omega)]
  have h : l.length + [e].length - 50 = l.length - 49 := by
    simp only [List.length_singleton]
    omega
  rw [h]

theorem events_applyEvents (l : List TimelineEvent) (s : SessionStore)
    (h : s.events.length ≤ 50) :
    (applyEvents l s).events = lastFifty (s.events ++ l) := by
  induction l using List.reverseRecOn with
  | nil =>
    simp [applyEvents, lastFifty, Nat.sub_eq_zero_of_le h]
  | append_singleton l e ih =>
    have hstep : applyEvents (l ++ [e]) s = addEvent e (applyEvents l s) := by
      simp [applyEvents, List.foldl_append]
    rw [hstep]
    show sliceLast49 (applyEvents l s).events ++ [e] = _
    rw [ih, sliceLast49_lastFifty, ← lastFifty_append_singleton, List.append_assoc]

-- =========================
-- CLAIM C7 - timeline bound
-- =========================

/-- Claim C7: the events buffer never exceeds 50 entries after an addEvent,
and inserting 60 events through addEvent into an empty buffer leaves exactly
the last 50 in insertion order - the oldest 10 are evicted FIFO. -/
theorem claim7_theorem :
    (∀ (s : SessionStore) (e : TimelineEvent), ((addEvent e s).events).length ≤ 50) ∧
    (∀ (s : SessionStore) (l : List TimelineEvent), s.events = [] → l.length = 60 →
      (applyEvents l s).events = l.drop 10 ∧ ((applyEvents l s).events).length = 50) := by
  constructor
  · intro s e
    simp [addEvent, sliceLast49]
    omega
  · intro s l hs hl
    have h := events_applyEvents l s (by rw [hs]; simp)
    rw [hs, List.nil_append] at h
    have hfifty : lastFifty l = l.drop 10 := by
      unfold lastFifty
      rw [hl]
    rw [h, hfifty]
    refine ⟨rfl, ?_⟩
    rw [List.length_drop, hl]

/-- Witness for claim C7 at sixty concrete events. -/
theorem claim7_witness :
    ((addEvent (mkEv 0) initialStore).events).length ≤ 50 ∧
    ((applyEvents sixtyEvents initialStore).events = sixtyEvents.drop 10 ∧
     ((applyEvents sixtyEvents initialStore).events).length = 50) :=
  ⟨claim7_theorem.1 initialStore (mkEv 0),
   claim7_theorem.2 initialStore sixtyEvents rfl (by simp [sixtyEvents])⟩

-- =========================
-- CLAIM C3 - monotonicity of the video view
-- =========================

/-- Counterexample to claim C3 as stated: setVideoState performs no
monotonicity clamping, so a sequence of two updates within one session (no
reset in between) can lower totalFrames from 5 to 3 and the happy emotion
count from 5 to 2. -/
theorem claim3_counterexample :
    ¬ ((setVideoState { totalFrames := some 5 } initialStore).video.totalFrames ≤
       (setVideoState { totalFrames := some 3 }
         (setVideoState { totalFrames := some 5 } initialStore)).video.totalFrames) ∧
    ¬ (lookupD (setVideoState { emotionCounts := some [("happy", 5)] }
          initialStore).video.emotionCounts "happy" 0 ≤
       lookupD (setVideoState { emotionCounts := some [("happy", 2)] }
          (setVideoState { emotionCounts := some [("happy", 5)] }
            initialStore)).video.emotionCounts "happy" 0) :=
  ⟨by decide, by decide⟩

/-- Claim C3 amended: setVideoState installs patch values verbatim, with no
monotonicity enforcement; totalFrames and the per-emotion counts are
non-decreasing across a sequence of updates within one session precisely
when every applied patch carries values at least the current ones (as the
cumulative counters produced by the backend do). -/
theorem claim3_theorem (ps : List VideoPatch) (s : SessionStore)
    (h : VideoStepsUp s ps) :
    s.video.totalFrames ≤ (applyVideoPatches ps s).video.totalFrames ∧
    (∀ k, lookupD s.video.emotionCounts k 0 ≤
      lookupD (applyVideoPatches ps s).video.emotionCounts k 0) := by
  induction ps generalizing s with
  | nil => exact ⟨le_refl _, fun k => le_refl _⟩
  | cons p ps ih =>
    obtain ⟨h1, h2, h3⟩ := h
    have hfold : applyVideoPatches (p :: ps) s = applyVideoPatches ps (setVideoState p s) := rfl
    obtain ⟨ih1, ih2⟩ := ih (setVideoState p s) h3
    rw [hfold]
    constructor
    · refine le_trans ?_ ih1
      cases hp : p.totalFrames with
      | none => simp [setVideoState, mergeVideo, hp]
      | some v =>
        simp only [setVideoState, mergeVideo, hp, Option.getD_some]
        exact h1 v hp
    · intro k
      refine le_trans ?_ (ih2 k)
      cases hp : p.emotionCounts with
      | none => simp [setVideoState, mergeVideo, hp]
      | some m =>
        simp only [setVideoState, mergeVideo, hp, Option.getD_some]
        exact h2 m hp k

/-- Witness for claim C3 at a concrete cumulative patch. -/
theorem claim3_witness :
    VideoStepsUp initialStore [pW] ∧
    (initialStore.video.totalFrames ≤
       (applyVideoPatches [pW] initialStore).video.totalFrames ∧
     (∀ k, lookupD initialStore.video.emotionCounts k 0 ≤
       lookupD (applyVideoPatches [pW] initialStore).video.emotionCounts k 0)) := by
  have hsteps : VideoStepsUp initialStore [pW] := by
    refine ⟨?_, ?_, trivial⟩
    · intro v hv
      have hv5 : v = 5 := by simpa [pW] using hv.symm
      subst hv5
      decide
    · intro m hm
      have hm3 : m = [("happy", 3)] := by simpa [pW] using hm.symm
      subst hm3
      intro k
      show lookupD [] k 0 ≤ lookupD [("happy", 3)] k 0
      by_cases hk : ("happy" == k) = true
      · simp [lookupD, List.find?, hk]
      · simp [lookupD, List.find?, hk]
  exact ⟨hsteps, claim3_theorem [pW] initialStore hsteps⟩

-- =========================
-- CLAIM C1 - stale updates after a session reset
-- =========================

/-- Counterexample to claim C1 as stated: there is no session token anywhere
in the store; after resetSession, a delayed setAudioMetrics dispatched under
the previous session changes the audio view, so the view does not equal the
view immediately after reset. -/
theorem claim1_counterexample :
    (setAudioMetrics (some m1Ex) (resetSession initialStore)).audio ≠
      (resetSession initialStore).audio := by
  decide

/-- Claim C1 amended: the store carries no session token, so a delayed
producer update dispatched under the pre-reset session is applied to the
post-reset view with full effect, exactly as a fresh update would be: the
stale metrics are merged into the freshly reset audio view (forcing status
to recording), and a stale video patch is merged into the freshly reset
video view. -/
theorem claim1_theorem (s : SessionStore) (m : LiveMetrics) (p : VideoPatch) :
    (setAudioMetrics (some m) (resetSession s)).audio =
      { initialAudio with
        amplitude := m.amplitude, isSpeech := m.is_speech,
        duration := m.duration, status := .recording } ∧
    (setVideoState p (resetSession s)).video = mergeVideo initialVideo p :=
  ⟨rfl, rfl⟩

-- =========================
-- CLAIM C2 - terminal verdict
-- =========================

/-- Counterexample to claim C2 as stated: with no reset in between, a second
setFinalResult carrying the different non-null verdict NEUTRAL overwrites the
previously stored SATISFIED - the first value does not persist. -/
theorem claim2_counterexample :
    (setFinalResult (some rEx1) initialStore).agent.finalState = some "SATISFIED" ∧
    (setFinalResult (some rEx2)
       (setFinalResult (some rEx1) initialStore)).agent.finalState = some "NEUTRAL" ∧
    (setFinalResult (some rEx2)
       (setFinalResult (some rEx1) initialStore)).agent.finalState ≠ some "SATISFIED" :=
  ⟨by decide, by decide, by decide⟩

/-- Claim C2 amended: the final verdict is not terminal - last writer wins.
setFinalResult with a non-null result always installs the incoming
final_state over whatever was stored, and setAgentState with a finalState
key present installs that value, including an explicit null, without any
session reset. -/
theorem claim2_theorem :
    (∀ (s : SessionStore) (r : FinalResult),
      (setFinalResult (some r) s).agent.finalState = some r.final_state) ∧
    (∀ (s : SessionStore) (p : AgentPatch) (v : Option String),
      p.finalState = some v → (setAgentState p s).agent.finalState = v) := by
  constructor
  · intro s r
    rfl
  · intro s p v hp
    simp [setAgentState, mergeAgent, hp]

/-- Witness for claim C2: the second conjunct applied at an explicit-null
patch reverts a stored SATISFIED verdict to null without a reset. -/
theorem claim2_witness :
    (setFinalResult (some rEx1) initialStore).agent.finalState = some rEx1.final_state ∧
    (setAgentState pNull
      (setFinalResult (some rEx1) initialStore)).agent.finalState = none :=
  ⟨claim2_theorem.1 initialStore rEx1,
   claim2_theorem.2 (setFinalResult (some rEx1) initialStore) pNull none rfl⟩

-- =========================
-- CLAIM C4 - heartbeat failure detection
-- =========================

/-- Counterexample to claim C4 as stated: a server heartbeat frame does not
reset the missed-response counter - only a pong does. Two ticks in, the
counter is 2 and stays 2 after a heartbeat frame arrives. -/
theorem claim4_counterexample :
    (hbTick (hbTick sHB4)).missedPongs = 2 ∧
    (hbHeartbeat 100 (hbTick (hbTick sHB4))).missedPongs ≠ 0 :=
  ⟨by decide, by decide⟩

/-- Claim C4 amended: while the socket is open each probe tick increments the
missed-pong counter and a pong response resets it to 0, but a server
heartbeat frame leaves the counter unchanged (it only records the liveness
timestamp). After 3 consecutive unanswered probes the socket is still open;
the next probe tick pushes the counter past the threshold and closes the
transport client-side, and delivery of the resulting close event marks the
hook disconnected and schedules reconnection - within one further probe
interval of the third miss, with no server-side close required. -/
theorem claim4_theorem (s : HBState)
    (h1 : s.wsOpen = true) (h2 : s.pingActive = true) (h3 : s.missedPongs = 0)
    (h4 : s.shouldReconnect = true) (h5 : s.reconnectCount < reconnectAttemptsDefault) :
    ((hbTick s).missedPongs = 1 ∧ (hbTick s).wsOpen = true) ∧
    (∀ t, (hbPong t (hbTick s)).missedPongs = 0) ∧
    (∀ t, (hbHeartbeat t (hbTick s)).missedPongs = 1) ∧
    ((hbTick (hbTick (hbTick s))).missedPongs = 3 ∧
     (hbTick (hbTick (hbTick s))).wsOpen = true) ∧
    ((hbClose (hbTick (hbTick (hbTick (hbTick s))))).wsOpen = false ∧
     (hbClose (hbTick (hbTick (hbTick (hbTick s))))).isConnected = false ∧
     (hbClose (hbTick (hbTick (hbTick (hbTick s))))).reconnectScheduled = true) := by
  rcases s with ⟨wsOpen, pingActive, missed, lh, ic, sr, rc, cp, rs⟩
  simp only at h1 h2 h3 h4 h5
  subst h1
  subst h2
  subst h3
  subst h4
  refine ⟨⟨?_, ?_⟩, ?_, ?_, ⟨?_, ?_⟩, ?_, ?_, ?_⟩ <;>
    simp [hbTick, hbPong, hbHeartbeat, hbClose, MAX_MISSED_PONGS,
      reconnectAttemptsDefault, h5]
  exact h5

/-- Witness for claim C4 at a concrete just-connected heartbeat state. -/
theorem claim4_witness :
    (hbTick sHB4).missedPongs = 1 ∧
    (hbPong 7 (hbTick sHB4)).missedPongs = 0 ∧
    (hbHeartbeat 7 (hbTick sHB4)).missedPongs = 1 ∧
    (hbClose (hbTick (hbTick (hbTick (hbTick sHB4))))).wsOpen = false ∧
    (hbClose (hbTick (hbTick (hbTick (hbTick sHB4))))).reconnectScheduled = true := by
  have h := claim4_theorem sHB4 rfl rfl rfl rfl (by decide)
  exact ⟨h.1.1, h.2.1 7, h.2.2.1 7, h.2.2.2.2.1, h.2.2.2.2.2.2⟩

-- =========================
-- CLAIM C5 - cancellation of the poll coordinator
-- =========================

/-- Counterexample to claim C5 as stated: cancellation is not synchronous.
With one fetch already in flight, disabling the poll coordinator and then
letting the fetch complete still calls setAudioMetrics and mutates the
store. -/
theorem claim5_counterexample :
    (fetchComplete (pollDisable sPoll)).store ≠ (pollDisable sPoll).store := by
  decide

/-- Claim C5 amended: after the cleanup runs, the cleared interval dispatches
no new fetch (a late timer tick is a no-op on the whole poll state), but the
cleanup does not guard in-flight work with any token: a fetch already
dispatched still applies setAudioMetrics to the store when it completes
after disablement. -/
theorem claim5_theorem :
    (∀ (s : PollState) (m : LiveMetrics), pollTick m (pollDisable s) = pollDisable s) ∧
    (∀ (s : PollState) (m : LiveMetrics) (rest : List LiveMetrics),
      s.intervalActive = false → s.inFlight = m :: rest →
      (fetchComplete s).store = setAudioMetrics (some m) s.store) := by
  constructor
  · intro s m
    simp [pollTick, pollDisable]
  · intro s m rest hact hin
    rcases s with ⟨ia, infl, st⟩
    simp only at hin
    subst hin
    simp [fetchComplete]

/-- Witness for claim C5 at a disabled coordinator with one in-flight fetch. -/
theorem claim5_witness :
    pollTick m5Ex (pollDisable sPoll2) = pollDisable sPoll2 ∧
    (fetchComplete sPoll2).store = setAudioMetrics (some m5Ex) sPoll2.store :=
  ⟨claim5_theorem.1 sPoll2 m5Ex, claim5_theorem.2 sPoll2 m5Ex [] rfl rfl⟩

-- =========================
-- CLAIM C6 - idempotence of connect
-- =========================

/-- Counterexample to claim C6 as stated: while the socket is still
CONNECTING the guard (which checks only readyState OPEN) does not fire, so a
second connect call constructs a second transport. -/
theorem claim6_counterexample :
    (connect sConn).transportsOpened ≠ sConn.transportsOpened := by
  decide

/-- Claim C6 amended: connect is a no-op only while the current socket
reports OPEN; while a connection attempt is still in progress (readyState
CONNECTING) a second connect opens a duplicate transport. -/
theorem claim6_theorem :
    (∀ s : WSConnState, s.wsReady = some WSReady.OPEN → connect s = s) ∧
    (∀ s : WSConnState, s.wsReady = some WSReady.CONNECTING →
      (connect s).transportsOpened = s.transportsOpened + 1) := by
  constructor
  · intro s h
    simp [connect, h]
  · intro s h
    simp [connect, h]

/-- Witness for claim C6 at concrete OPEN and CONNECTING hook states. -/
theorem claim6_witness :
    connect sOpenEx = sOpenEx ∧
    (connect sConn).transportsOpened = sConn.transportsOpened + 1 :=
  ⟨claim6_theorem.1 sOpenEx rfl, claim6_theorem.2 sConn rfl⟩

-- =========================
-- CLAIM C8 - shallow field-level merge
-- =========================

/-- Counterexample to claim C8 as stated: a push-channel video_stats frame
with the total_frames wire field missing does not leave the view field
untouched - the handler fills the gap with 0 and that default overwrites the
previous value 40. -/
theorem claim8_counterexample :
    s40.video.totalFrames = 40 ∧
    (handleVideoStats dMiss s40).video.totalFrames ≠ s40.video.totalFrames :=
  ⟨by decide, by decide⟩

/-- Claim C8 amended: the four apply operations are genuine shallow merges -
for every field, a present patch key overwrites exactly that field and an
absent key leaves it untouched. A push-channel video_stats frame, however,
is first normalized into a complete snapshot, so its wire-absent fields
overwrite the view with defaults (0, neutral), faceCount is forced to 0 and
isRecording to true regardless of the previous view. -/
theorem claim8_theorem (s : SessionStore) (pa : AudioPatch) (pv : VideoPatch)
    (pg : AgentPatch) (pc : ConnectionPatch) (d : VideoStatsWire) :
    ((setAudioState pa s).audio.amplitude = pa.amplitude.getD s.audio.amplitude ∧
     (setAudioState pa s).audio.isSpeech = pa.isSpeech.getD s.audio.isSpeech ∧
     (setAudioState pa s).audio.duration = pa.duration.getD s.audio.duration ∧
     (setAudioState pa s).audio.status = pa.status.getD s.audio.status ∧
     (setAudioState pa s).audio.totalFrames = pa.totalFrames.getD s.audio.totalFrames ∧
     (setAudioState pa s).audio.speechFrames = pa.speechFrames.getD s.audio.speechFrames ∧
     (setAudioState pa s).audio.error = pa.error.getD s.audio.error) ∧
    ((setVideoState pv s).video.faceCount = pv.faceCount.getD s.video.faceCount ∧
     (setVideoState pv s).video.dominantEmotion
        = pv.dominantEmotion.getD s.video.dominantEmotion ∧
     (setVideoState pv s).video.confidence = pv.confidence.getD s.video.confidence ∧
     (setVideoState pv s).video.totalFrames = pv.totalFrames.getD s.video.totalFrames ∧
     (setVideoState pv s).video.duration = pv.duration.getD s.video.duration ∧
     (setVideoState pv s).video.emotionCounts
        = pv.emotionCounts.getD s.video.emotionCounts ∧
     (setVideoState pv s).video.isRecording = pv.isRecording.getD s.video.isRecording) ∧
    ((setAgentState pg s).agent.finalState = pg.finalState.getD s.agent.finalState ∧
     (setAgentState pg s).agent.confidence = pg.confidence.getD s.agent.confidence ∧
     (setAgentState pg s).agent.reasoning = pg.reasoning.getD s.agent.reasoning ∧
     (setAgentState pg s).agent.recommendation
        = pg.recommendation.getD s.agent.recommendation) ∧
    ((setConnectionState pc s).connection.isConnected
        = pc.isConnected.getD s.connection.isConnected ∧
     (setConnectionState pc s).connection.isConnecting
        = pc.isConnecting.getD s.connection.isConnecting ∧
     (setConnectionState pc s).connection.reconnectCount
        = pc.reconnectCount.getD s.connection.reconnectCount ∧
     (setConnectionState pc s).connection.lastError
        = pc.lastError.getD s.connection.lastError) ∧
    ((handleVideoStats d s).video.totalFrames = jsOrNum d.total_frames 0 ∧
     (handleVideoStats d s).video.duration = jsOrNum d.duration 0 ∧
     (handleVideoStats d s).video.confidence = jsOrNum d.confidence 0 ∧
     (handleVideoStats d s).video.dominantEmotion = jsOrStr d.dominant_emotion "neutral" ∧
     (handleVideoStats d s).video.faceCount = 0 ∧
     (handleVideoStats d s).video.isRecording = true) :=
  ⟨⟨rfl, rfl, rfl, rfl, rfl, rfl, rfl⟩,
   ⟨rfl, rfl, rfl, rfl, rfl, rfl, rfl⟩,
   ⟨rfl, rfl, rfl, rfl⟩,
   ⟨rfl, rfl, rfl, rfl⟩,
   ⟨rfl, rfl, rfl, rfl, rfl, rfl⟩⟩

-- =========================
-- CLAIM C9 - merge idempotence
-- =========================

/-- Claim C9: applying the same audio update twice in succession - whether a
setAudioState patch or a setAudioMetrics payload (null included) - leaves
the store exactly as applying it once. -/
theorem claim9_theorem (s : SessionStore) (p : AudioPatch) (m : Option LiveMetrics) :
    setAudioState p (setAudioState p s) = setAudioState p s ∧
    setAudioMetrics m (setAudioMetrics m s) = setAudioMetrics m s := by
  constructor
  · simp [setAudioState, mergeAudio_idem]
  · cases m with
    | none => rfl
    | some mm => rfl

-- =========================
-- CLAIM C10 - frame of resetSession
-- =========================

/-- Claim C10: resetSession restores the session metadata, the audio, video
and agent views, the timeline events, the error slot and the three legacy
mirrors to their initial values, and leaves the connection state, the user
role and the isLoading flag untouched. -/
theorem claim10_theorem (s : SessionStore) :
    (resetSession s).session = initialSession ∧
    (resetSession s).audio = initialAudio ∧
    (resetSession s).video = initialVideo ∧
    (resetSession s).agent = initialAgent ∧
    (resetSession s).events = [] ∧
    (resetSession s).error = none ∧
    (resetSession s).videoStats = none ∧
    (resetSession s).audioMetrics = none ∧
    (resetSession s).finalResult = none ∧
    (resetSession s).connection = s.connection ∧
    (resetSession s).role = s.role ∧
    (resetSession s).isLoading = s.isLoading :=
  ⟨rfl, rfl, rfl, rfl, rfl, rfl, rfl, rfl, rfl, rfl, rfl, rfl⟩

end AIMonitor
